import Mathlib

/-!
# Verification of the AWS idle-resource cleaner

A shallow embedding of the repository (aws_cleaner.py, lambda_function.py)
into Lean 4, together with theorems settling the frozen claims about it.

Modelling conventions:
* Provider responses are explicit lists of record structures mirroring the
  dictionaries boto3 returns; an optional dictionary key is an `Option` field.
* Wall-clock timestamps are integers (seconds); `PyDatetime` carries the
  naive wall-clock value plus an optional timezone offset, and
  `replace(tzinfo=None)` projects to the wall-clock value.  `timedelta(days=d)`
  is `d * 86400` seconds.
* Mutating provider calls (release_address, delete_snapshot,
  terminate_instances) are reified as an `ApiCall` trace returned alongside
  each operation's result; a call that the provider rejects still appears in
  the trace (it was issued) but is recorded as raising via a failure oracle
  `failsAt : Nat -> Bool` indexed by the position of the item in the loop.
* Printed / logged error lines of the CLI and the `results['errors']` entries
  of the Lambda flavor are modelled uniformly as the returned error list.
-/

/-- A Python `datetime`: naive wall-clock value in seconds plus an optional
timezone offset.  `replace(tzinfo=None)` keeps `wall` and drops `tz`;
comparisons between naive datetimes compare `wall`. -/
structure PyDatetime where
  wall : Int
  tz : Option Int
  deriving DecidableEq, Repr

/-- Abstract rendering of `datetime.isoformat()`: an injective textual
rendering of the datetime (the exact ISO byte format is irrelevant to every
claim; only which record the string came from matters). -/
def pyIsoformat (d : PyDatetime) : String :=
  "ts-" ++ toString d.wall ++
    (match d.tz with
     | none => ""
     | some m => "+" ++ toString m)

/-- A mutating provider call, as issued by the cleaners. -/
inductive ApiCall where
  | releaseAllocationId (allocationId : Option String)
  | releasePublicIp (publicIp : Option String)
  | deleteSnapshot (snapshotId : String)
  | terminateInstance (instanceId : String)
  deriving DecidableEq, Repr

/-- Per-kind cleaned counters (`total_cleaned` / `results['cleaned']`). -/
structure Totals where
  eips : Nat
  snapshots : Nat
  instances : Nat
  deriving DecidableEq, Repr

/-- One address entry of a `describe_addresses` response.  An absent
dictionary key is `none`. -/
structure EipRaw where
  instanceId : Option String
  networkInterfaceId : Option String
  allocationId : Option String
  publicIp : Option String
  domain : Option String
  deriving DecidableEq, Repr

/-- The candidate record both finders build for an unattached address:
`{'AllocationId': eip.get('AllocationId'), 'PublicIp': eip.get('PublicIp'),
'Domain': eip.get('Domain', 'classic')}`. -/
structure EipRec where
  allocationId : Option String
  publicIp : Option String
  domain : String
  deriving DecidableEq, Repr

/-- The projection applied to a kept address entry; an absent `Domain`
defaults to `"classic"`. -/
def projectEip (e : EipRaw) : EipRec :=
  { allocationId := e.allocationId
    publicIp := e.publicIp
    domain := e.domain.getD "classic" }

/-- Model of `find_unused_elastic_ips` (identical in aws_cleaner.py and
lambda_function.py): keep an address iff it has neither an `InstanceId` nor
a `NetworkInterfaceId` key. -/
def find_unused_elastic_ips : List EipRaw → List EipRec
  | [] => []
  | e :: rest =>
    if e.instanceId.isNone && e.networkInterfaceId.isNone then
      projectEip e :: find_unused_elastic_ips rest
    else
      find_unused_elastic_ips rest

/-- One snapshot entry of a `describe_snapshots(OwnerIds=[self])` response. -/
structure SnapRaw where
  snapshotId : String
  description : Option String
  startTime : PyDatetime
  volumeSize : Int
  deriving DecidableEq, Repr

/-- CLI candidate record for an old snapshot (keeps the datetime object). -/
structure SnapshotRecord where
  snapshotId : String
  description : String
  startTime : PyDatetime
  volumeSize : Int
  deriving DecidableEq, Repr

/-- Lambda candidate record (stores `StartTime.isoformat()`). -/
structure SnapshotRecordL where
  snapshotId : String
  description : String
  startTime : String
  volumeSize : Int
  deriving DecidableEq, Repr

/-- CLI projection of a kept snapshot entry (`Description` defaults to
`'No description'`). -/
def projectSnapshot (s : SnapRaw) : SnapshotRecord :=
  { snapshotId := s.snapshotId
    description := s.description.getD "No description"
    startTime := s.startTime
    volumeSize := s.volumeSize }

/-- Lambda projection of a kept snapshot entry. -/
def projectSnapshotL (s : SnapRaw) : SnapshotRecordL :=
  { snapshotId := s.snapshotId
    description := s.description.getD "No description"
    startTime := pyIsoformat s.startTime
    volumeSize := s.volumeSize }

/-- Model of `find_old_snapshots` of aws_cleaner.py: keep a snapshot iff its tz-naive
start time is strictly before `datetime.now() - timedelta(days=days)`. -/
def find_old_snapshots (now days : Int) : List SnapRaw → List SnapshotRecord
  | [] => []
  | s :: rest =>
    if s.startTime.wall < now - days * 86400 then
      projectSnapshot s :: find_old_snapshots now days rest
    else
      find_old_snapshots now days rest

/-- Model of `find_old_snapshots` of lambda_function.py: same predicate, Lambda
projection. -/
def find_old_snapshots_l (now days : Int) : List SnapRaw → List SnapshotRecordL
  | [] => []
  | s :: rest =>
    if s.startTime.wall < now - days * 86400 then
      projectSnapshotL s :: find_old_snapshots_l now days rest
    else
      find_old_snapshots_l now days rest

/-- One instance entry of a `describe_instances` response (the responses the
finders receive are already server-side filtered to lifecycle state
`stopped`; `stateName` is `instance['State']['Name']`). -/
structure InstRaw where
  instanceId : String
  instanceType : String
  launchTime : PyDatetime
  stateName : String
  stateTransitionReason : Option String
  tags : List (String × String)
  deriving DecidableEq, Repr

/-- CLI candidate record for a long-stopped instance. -/
structure InstanceRecord where
  instanceId : String
  instanceType : String
  launchTime : PyDatetime
  state : String
  name : String
  deriving DecidableEq, Repr

/-- Lambda candidate record (stores `LaunchTime.isoformat()`). -/
structure InstanceRecordL where
  instanceId : String
  instanceType : String
  launchTime : String
  state : String
  name : String
  deriving DecidableEq, Repr

/-- Model of `_get_instance_name` (identical in both files): the value of the first
tag whose key is `Name`, else `'No Name'`. -/
def get_instance_name (tags : List (String × String)) : String :=
  match tags.find? (fun t => t.1 == "Name") with
  | some t => t.2
  | none => "No Name"

/-- CLI projection of a kept instance entry. -/
def projectInstance (i : InstRaw) : InstanceRecord :=
  { instanceId := i.instanceId
    instanceType := i.instanceType
    launchTime := i.launchTime
    state := i.stateName
    name := get_instance_name i.tags }

/-- Lambda projection of a kept instance entry. -/
def projectInstanceL (i : InstRaw) : InstanceRecordL :=
  { instanceId := i.instanceId
    instanceType := i.instanceType
    launchTime := pyIsoformat i.launchTime
    state := i.stateName
    name := get_instance_name i.tags }

/-- Python substring containment `needle in hay` on character lists. -/
def strHasSub (needle : List Char) : List Char → Bool
  | [] => needle.isEmpty
  | c :: rest => needle.isPrefixOf (c :: rest) || strHasSub needle rest

/-- The per-character test of aws_cleaner.py line 97-98: iterating
`instance.get('StateTransitionReason', '')` yields single characters
`transition`, and the code tests `'stopped' in transition.lower()`. -/
def stoppedCharHit (c : Char) : Bool :=
  strHasSub "stopped".toList [c.toLower]

/-- The characters of a transition-reason string that pass the (dead)
`'stopped' in transition.lower()` test. -/
def cliTransitionHits (reason : String) : List Char :=
  reason.toList.filter stoppedCharHit

/-- The records aws_cleaner.py appends for one instance: one append per
character of `StateTransitionReason` passing the test, guarded by the
launch-time cutoff. -/
def cliInstContribution (now days : Int) (i : InstRaw) : List InstanceRecord :=
  (cliTransitionHits (i.stateTransitionReason.getD "")).foldr
    (fun _ acc =>
      if i.launchTime.wall < now - days * 86400 then
        projectInstance i :: acc
      else
        acc)
    []

/-- Inner loop of the CLI `find_stopped_instances` over the instances of one
reservation. -/
def find_stopped_in_reservation (now days : Int) : List InstRaw → List InstanceRecord
  | [] => []
  | i :: rest =>
    cliInstContribution now days i ++ find_stopped_in_reservation now days rest

/-- Model of `find_stopped_instances` of aws_cleaner.py: nested loops over
reservations and instances, with the per-character transition test. -/
def find_stopped_instances (now days : Int) : List (List InstRaw) → List InstanceRecord
  | [] => []
  | res :: rest =>
    find_stopped_in_reservation now days res ++ find_stopped_instances now days rest

/-- Inner loop of the Lambda `find_stopped_instances` over one reservation:
keep an instance iff its tz-naive launch time is strictly before the cutoff. -/
def find_stopped_in_reservation_l (now days : Int) : List InstRaw → List InstanceRecordL
  | [] => []
  | i :: rest =>
    if i.launchTime.wall < now - days * 86400 then
      projectInstanceL i :: find_stopped_in_reservation_l now days rest
    else
      find_stopped_in_reservation_l now days rest

/-- Model of `find_stopped_instances` of lambda_function.py. -/
def find_stopped_instances_l (now days : Int) : List (List InstRaw) → List InstanceRecordL
  | [] => []
  | res :: rest =>
    find_stopped_in_reservation_l now days res ++ find_stopped_instances_l now days rest

/-- The release call `clean_elastic_ips` issues for one candidate:
release-by-allocation-id when `Domain == 'vpc'`, else release-by-public-ip. -/
def eipCall (e : EipRec) : ApiCall :=
  if e.domain = "vpc" then
    ApiCall.releaseAllocationId e.allocationId
  else
    ApiCall.releasePublicIp e.publicIp

/-- Rendering of an optional string under a Python f-string (absent values
print as `None`). -/
def optStr (o : Option String) : String :=
  o.getD "None"

/-- Error line recorded when releasing one address raises (both flavors use
the same text, keyed by the item address). -/
def eipErrMsg (e : EipRec) : String :=
  "Error releasing EIP " ++ optStr e.publicIp

/-- The delete call issued for one snapshot candidate. -/
def snapCallCli (s : SnapshotRecord) : ApiCall :=
  ApiCall.deleteSnapshot s.snapshotId

/-- Error line recorded when deleting one snapshot raises (CLI records). -/
def snapErrMsgCli (s : SnapshotRecord) : String :=
  "Error deleting snapshot " ++ s.snapshotId

/-- The delete call issued for one Lambda snapshot candidate. -/
def snapCallL (s : SnapshotRecordL) : ApiCall :=
  ApiCall.deleteSnapshot s.snapshotId

/-- Error line recorded when deleting one snapshot raises (Lambda records). -/
def snapErrMsgL (s : SnapshotRecordL) : String :=
  "Error deleting snapshot " ++ s.snapshotId

/-- The terminate call issued for one CLI instance candidate. -/
def instCallCli (i : InstanceRecord) : ApiCall :=
  ApiCall.terminateInstance i.instanceId

/-- Error line recorded when terminating one CLI instance raises. -/
def instErrMsgCli (i : InstanceRecord) : String :=
  "Error terminating instance " ++ i.instanceId

/-- The terminate call issued for one Lambda instance candidate. -/
def instCallL (i : InstanceRecordL) : ApiCall :=
  ApiCall.terminateInstance i.instanceId

/-- Error line recorded when terminating one Lambda instance raises. -/
def instErrMsgL (i : InstanceRecordL) : String :=
  "Error terminating instance " ++ i.instanceId

/-- The shared per-item cleanup loop (CLI `clean_elastic_ips` /
`clean_snapshots` and the three item loops of the Lambda
`cleanup_resources` all have this shape): for each item, dry-run records
nothing and counts it; live mode issues the item call, and when the call
raises (per the `failsAt` oracle, indexed by loop position) records one
error message and moves on without counting; otherwise counts it.  Returns
(count, error lines, issued mutating calls). -/
def cleanupLoop (mkCall : α → ApiCall) (mkErr : α → String)
    (dryRun : Bool) (failsAt : Nat → Bool) :
    Nat → List α → Nat × List String × List ApiCall
  | _, [] => (0, [], [])
  | i, x :: rest =>
    let r := cleanupLoop mkCall mkErr dryRun failsAt (i + 1) rest
    if dryRun then
      (r.1 + 1, r.2.1, r.2.2)
    else if failsAt i then
      (r.1, mkErr x :: r.2.1, mkCall x :: r.2.2)
    else
      (r.1 + 1, r.2.1, mkCall x :: r.2.2)

/-- Model of `clean_elastic_ips` of aws_cleaner.py (count returned; error lines and
issued calls are its reified effects). -/
def clean_elastic_ips (dryRun : Bool) (failsAt : Nat → Bool)
    (eips : List EipRec) : Nat × List String × List ApiCall :=
  cleanupLoop eipCall eipErrMsg dryRun failsAt 0 eips

/-- Model of `clean_snapshots` of aws_cleaner.py. -/
def clean_snapshots (dryRun : Bool) (failsAt : Nat → Bool)
    (snaps : List SnapshotRecord) : Nat × List String × List ApiCall :=
  cleanupLoop snapCallCli snapErrMsgCli dryRun failsAt 0 snaps

/-- Model of `clean_stopped_instances` of aws_cleaner.py: dry-run only prints (and
does not count); live mode asks a per-item confirmation, a declined item is
skipped silently (no call, no count, no error), a confirmed item issues the
terminate call and counts only on success. -/
def clean_stopped_instances (dryRun : Bool) (confirm : InstanceRecord → Bool)
    (failsAt : Nat → Bool) :
    Nat → List InstanceRecord → Nat × List String × List ApiCall
  | _, [] => (0, [], [])
  | i, x :: rest =>
    let r := clean_stopped_instances dryRun confirm failsAt (i + 1) rest
    if dryRun then
      r
    else if confirm x then
      if failsAt i then
        (r.1, instErrMsgCli x :: r.2.1, instCallCli x :: r.2.2)
      else
        (r.1 + 1, r.2.1, instCallCli x :: r.2.2)
    else
      r

/-- The configuration dictionary the Lambda handler builds from the event.
`snapshotDays` / `instanceDays` are `none` when the event carried a value
`timedelta` rejects (the finder then raises internally and returns `[]`). -/
structure LambdaConfig where
  dryRun : Bool
  cleanEips : Bool
  cleanSnapshots : Bool
  cleanInstances : Bool
  snapshotDays : Option Int
  instanceDays : Option Int

/-- The provider world one regional client sees, plus the failure oracles
for the mutating calls of each kind-loop (indexed by loop position). -/
structure RegionEnv where
  now : Int
  addresses : List EipRaw
  snapshots : List SnapRaw
  reservations : List (List InstRaw)
  failsEip : Nat → Bool
  failsSnap : Nat → Bool
  failsInst : Nat → Bool

/-- The per-region result dictionary of `cleanup_resources`.  `region` is
whatever value the handler iterated out of the event (a Python object);
`timestamp` is the naive wall clock at the start of the pass. -/
structure CleanupResult where
  regionWall : Int
  cleaned : Totals
  errors : List String

/-- EIP block of `cleanup_resources` (lambda_function.py lines 110-133):
runs only when `clean_eips` is truthy; candidates from
`find_unused_elastic_ips`; the item loop is `cleanupLoop` with the release
call and error line of this kind. -/
def eipStage (cfg : LambdaConfig) (env : RegionEnv) : Nat × List String × List ApiCall :=
  if cfg.cleanEips then
    cleanupLoop eipCall eipErrMsg cfg.dryRun env.failsEip 0
      (find_unused_elastic_ips env.addresses)
  else
    (0, [], [])

/-- Snapshot block of `cleanup_resources` (lines 136-157).  A non-integer
`snapshot_days` makes `timedelta` raise inside the finder, which catches it
and yields no candidates. -/
def snapStage (cfg : LambdaConfig) (env : RegionEnv) : Nat × List String × List ApiCall :=
  if cfg.cleanSnapshots then
    match cfg.snapshotDays with
    | some d =>
      cleanupLoop snapCallL snapErrMsgL cfg.dryRun env.failsSnap 0
        (find_old_snapshots_l env.now d env.snapshots)
    | none => (0, [], [])
  else
    (0, [], [])

/-- Instance block of `cleanup_resources` (lines 160-181). -/
def instStage (cfg : LambdaConfig) (env : RegionEnv) : Nat × List String × List ApiCall :=
  if cfg.cleanInstances then
    match cfg.instanceDays with
    | some d =>
      cleanupLoop instCallL instErrMsgL cfg.dryRun env.failsInst 0
        (find_stopped_instances_l env.now d env.reservations)
    | none => (0, [], [])
  else
    (0, [], [])

/-- Model of `cleanup_resources` of lambda_function.py: the three kind blocks run in
order, sharing one `errors` list; returns the result dictionary together
with the issued mutating calls. -/
def cleanup_resources (cfg : LambdaConfig) (env : RegionEnv) :
    CleanupResult × List ApiCall :=
  let e := eipStage cfg env
  let s := snapStage cfg env
  let i := instStage cfg env
  ({ regionWall := env.now
     cleaned := { eips := e.1, snapshots := s.1, instances := i.1 }
     errors := e.2.1 ++ s.2.1 ++ i.2.1 },
   e.2.2 ++ s.2.2 ++ i.2.2)

/-- A JSON-like Python value, as carried by the Lambda event. -/
inductive PyVal where
  | str (s : String)
  | int (n : Int)
  | bool (b : Bool)
  | none
  | list (xs : List PyVal)
  | dict (kvs : List (String × PyVal))
  deriving Repr

/-- Dictionary lookup `d.get(key, default)` on an event (keys are unique). -/
def pyGet (kvs : List (String × PyVal)) (key : String) (dflt : PyVal) : PyVal :=
  match kvs.find? (fun p => p.1 == key) with
  | some p => p.2
  | Option.none => dflt

/-- Python truthiness, as applied by `if not dry_run` and
`if config.get(..., False)`. -/
def pyTruthy : PyVal → Bool
  | .str s => s ≠ ""
  | .int n => n ≠ 0
  | .bool b => b
  | .none => false
  | .list xs => ¬xs.isEmpty
  | .dict kvs => ¬kvs.isEmpty

/-- The values `timedelta(days=...)` accepts among our event values
(booleans are integers in Python); anything else raises inside the finder. -/
def pyToInt : PyVal → Option Int
  | .int n => some n
  | .bool b => some (if b then 1 else 0)
  | _ => Option.none

/-- Python iteration `for region in regions`: a list yields its elements, a
string its characters (as 1-character strings), a dictionary its keys;
numbers, booleans and None raise a TypeError. -/
def pyIterElems : PyVal → Except String (List PyVal)
  | .list xs => .ok xs
  | .str s => .ok (s.toList.map (fun c => .str (String.singleton c)))
  | .dict kvs => .ok (kvs.map (fun p => PyVal.str p.1))
  | .int _ => .error "TypeError: int object is not iterable"
  | .bool _ => .error "TypeError: bool object is not iterable"
  | .none => .error "TypeError: NoneType object is not iterable"

/-- The `config` dictionary lambda_handler builds from the event
(lines 204-211), with each field already coerced the way `cleanup_resources`
consumes it. -/
def cfgFromEvent (event : List (String × PyVal)) : LambdaConfig :=
  { dryRun := pyTruthy (pyGet event "dry_run" (.bool true))
    cleanEips := pyTruthy (pyGet event "clean_eips" (.bool false))
    cleanSnapshots := pyTruthy (pyGet event "clean_snapshots" (.bool false))
    cleanInstances := pyTruthy (pyGet event "clean_instances" (.bool false))
    snapshotDays := pyToInt (pyGet event "snapshot_days" (.int 30))
    instanceDays := pyToInt (pyGet event "instance_days" (.int 7)) }

/-- One step of the aggregation loop of lambda_handler (lines 230-233):
add the per-kind counts of one region result and extend the error list. -/
def aggStep (acc : Totals × List String) (r : CleanupResult) : Totals × List String :=
  ({ eips := acc.1.eips + r.cleaned.eips
     snapshots := acc.1.snapshots + r.cleaned.snapshots
     instances := acc.1.instances + r.cleaned.instances },
   acc.2 ++ r.errors)

/-- The aggregation loop of lambda_handler (lines 227-233): running
per-kind totals plus the concatenated error lists, in region order. -/
def aggregateResults (rs : List CleanupResult) : Totals × List String :=
  rs.foldl aggStep (⟨0, 0, 0⟩, [])

/-- The body of a successful (statusCode 200) handler response. -/
structure LambdaBody where
  message : String
  total_cleaned : Totals
  regions_processed : Nat
  dry_run : PyVal
  detailed_results : List CleanupResult
  errors : List String

/-- The body of a handler response: the success dictionary or the
`{error, message}` failure dictionary. -/
inductive LBody where
  | success (b : LambdaBody)
  | failure (error : String) (message : String)

/-- Field `total_cleaned` of a response body (zero on the failure shape, which
carries no counters). -/
def LBody.totalCleaned : LBody → Totals
  | .success b => b.total_cleaned
  | .failure _ _ => ⟨0, 0, 0⟩

/-- Field `regions_processed` of a response body (zero on the failure shape). -/
def LBody.regionsProcessed : LBody → Nat
  | .success b => b.regions_processed
  | .failure _ _ => 0

/-- The `error` string of a response body, when present. -/
def LBody.errorMsg : LBody → Option String
  | .success _ => Option.none
  | .failure e _ => some e

/-- A handler response object. -/
structure LambdaResponse where
  statusCode : Nat
  body : LBody

/-- Model of `lambda_handler` of lambda_function.py: parses the config, iterates the
`regions` value of the event (default: a one-element list holding the
ambient session region), runs `cleanup_resources` per region against that
region's provider world `env`, aggregates, and returns the 200 response;
the only raising step in the body is the region iteration itself, and the
top-level `except` downgrades it to a 500 response.  Also returns the
mutating calls issued across all regions. -/
def lambda_handler (defaultRegion : String) (event : List (String × PyVal))
    (env : PyVal → RegionEnv) : LambdaResponse × List ApiCall :=
  match pyIterElems (pyGet event "regions" (.list [.str defaultRegion])) with
  | .error e =>
    ({ statusCode := 500, body := .failure e "Cleanup failed" }, [])
  | .ok regions =>
    let outs := regions.map (fun r => cleanup_resources (cfgFromEvent event) (env r))
    let allResults := outs.map (fun o => o.1)
    let agg := aggregateResults allResults
    ({ statusCode := 200
       body := .success
         { message := "Cleanup completed successfully"
           total_cleaned := agg.1
           regions_processed := regions.length
           dry_run := pyGet event "dry_run" (.bool true)
           detailed_results := allResults
           errors := agg.2 } },
     (outs.map (fun o => o.2)).flatten)

/-- CLI options relevant to one run of `main` (aws_cleaner.py lines
197-206): one shared `--days` threshold for snapshots and instances. -/
structure CliConfig where
  dryRun : Bool
  cleanEips : Bool
  cleanSnapshots : Bool
  cleanInstances : Bool
  days : Int
  force : Bool

/-- The answers the operator gives to the prompts of one region pass: the
three top-level `Proceed with ... cleanup?` confirmations plus the per-item
confirmation of `clean_stopped_instances`. -/
structure Confirms where
  eips : Bool
  snapshots : Bool
  instances : Bool
  perInstance : InstanceRecord → Bool

/-- Adds one kind count and trace onto the running pair. -/
def accAdd (acc : Totals × List ApiCall) (t : Totals) (tr : List ApiCall) :
    Totals × List ApiCall :=
  ({ eips := acc.1.eips + t.eips
     snapshots := acc.1.snapshots + t.snapshots
     instances := acc.1.instances + t.instances },
   acc.2 ++ tr)

/-- Instance block of the `main` region loop (aws_cleaner.py lines
257-268), the last block of the loop body. -/
def regionStageInstances (cfg : CliConfig) (env : RegionEnv) (conf : Confirms)
    (acc : Totals × List ApiCall) : Totals × List ApiCall :=
  if cfg.cleanInstances then
    let cands := find_stopped_instances env.now cfg.days env.reservations
    if cands.isEmpty then
      acc
    else if !cfg.dryRun && !cfg.force && !conf.instances then
      acc
    else
      let r := clean_stopped_instances cfg.dryRun conf.perInstance env.failsInst 0 cands
      accAdd acc ⟨0, 0, r.1⟩ r.2.2
  else
    acc

/-- Snapshot block of the `main` region loop (lines 243-254).  A declined
confirmation executes `continue`, which abandons the remainder of the
region loop body, so the instance block is not reached. -/
def regionStageSnapshots (cfg : CliConfig) (env : RegionEnv) (conf : Confirms)
    (acc : Totals × List ApiCall) : Totals × List ApiCall :=
  if cfg.cleanSnapshots then
    let cands := find_old_snapshots env.now cfg.days env.snapshots
    if cands.isEmpty then
      regionStageInstances cfg env conf acc
    else if !cfg.dryRun && !cfg.force && !conf.snapshots then
      acc
    else
      let r := clean_snapshots cfg.dryRun env.failsSnap cands
      regionStageInstances cfg env conf (accAdd acc ⟨0, r.1, 0⟩ r.2.2)
  else
    regionStageInstances cfg env conf acc

/-- EIP block of the `main` region loop (lines 229-240); a declined
confirmation executes `continue`, abandoning the snapshot and instance
blocks of this region. -/
def regionStageEips (cfg : CliConfig) (env : RegionEnv) (conf : Confirms)
    (acc : Totals × List ApiCall) : Totals × List ApiCall :=
  if cfg.cleanEips then
    let cands := find_unused_elastic_ips env.addresses
    if cands.isEmpty then
      regionStageSnapshots cfg env conf acc
    else if !cfg.dryRun && !cfg.force && !conf.eips then
      acc
    else
      let r := clean_elastic_ips cfg.dryRun env.failsEip cands
      regionStageSnapshots cfg env conf (accAdd acc ⟨r.1, 0, 0⟩ r.2.2)
  else
    regionStageSnapshots cfg env conf acc

/-- One iteration of the `for current_region in regions_to_scan` loop of
`main`: the contribution of one region, starting from zero counters. -/
def regionPass (cfg : CliConfig) (env : RegionEnv) (conf : Confirms) :
    Totals × List ApiCall :=
  regionStageEips cfg env conf (⟨0, 0, 0⟩, [])

/-- One iteration of the region loop of `main` as seen from the running
accumulator: add the contribution of one region. -/
def cliStep (cfg : CliConfig) (envOf : String → RegionEnv)
    (confOf : String → Confirms) (acc : Totals × List ApiCall) (r : String) :
    Totals × List ApiCall :=
  accAdd acc (regionPass cfg (envOf r) (confOf r)).1
    (regionPass cfg (envOf r) (confOf r)).2

/-- The region loop of `main` (aws_cleaner.py lines 224-268): accumulates
`total_cleaned` across the scanned regions and always falls through to the
summary print, whose counters are the returned totals. -/
def cliMain (cfg : CliConfig) (regions : List String)
    (envOf : String → RegionEnv) (confOf : String → Confirms) :
    Totals × List ApiCall :=
  regions.foldl (cliStep cfg envOf confOf) (⟨0, 0, 0⟩, [])

/-! ## Helper lemmas about the cleanup loops -/

theorem cleanupLoop_dry {α : Type} (mkCall : α → ApiCall) (mkErr : α → String)
    (failsAt : Nat → Bool) (i : Nat) (xs : List α) :
    cleanupLoop mkCall mkErr true failsAt i xs = (xs.length, [], []) := by
  induction xs generalizing i with
  | nil => rfl
  | cons x rest ih => simp [cleanupLoop, ih]

theorem cleanupLoop_inv {α : Type} (mkCall : α → ApiCall) (mkErr : α → String)
    (dryRun : Bool) (failsAt : Nat → Bool) (i : Nat) (xs : List α) :
    (cleanupLoop mkCall mkErr dryRun failsAt i xs).1
      + (cleanupLoop mkCall mkErr dryRun failsAt i xs).2.1.length = xs.length := by
  induction xs generalizing i with
  | nil => rfl
  | cons x rest ih =>
    have h := ih (i + 1)
    cases dryRun with
    | true => simp [cleanupLoop]; omega
    | false =>
      by_cases hf : failsAt i = true
      · simp [cleanupLoop, hf]; omega
      · simp [cleanupLoop, hf] at h ⊢; omega

theorem cleanupLoop_live_trace {α : Type} (mkCall : α → ApiCall) (mkErr : α → String)
    (failsAt : Nat → Bool) (i : Nat) (xs : List α) :
    (cleanupLoop mkCall mkErr false failsAt i xs).2.2 = xs.map mkCall := by
  induction xs generalizing i with
  | nil => rfl
  | cons x rest ih =>
    by_cases hf : failsAt i = true <;> simp [cleanupLoop, hf, ih]

theorem cleanupLoop_nofail {α : Type} (mkCall : α → ApiCall) (mkErr : α → String)
    (failsAt : Nat → Bool) (i : Nat) (xs : List α)
    (h : ∀ j, i ≤ j → failsAt j = false) :
    cleanupLoop mkCall mkErr false failsAt i xs = (xs.length, [], xs.map mkCall) := by
  induction xs generalizing i with
  | nil => rfl
  | cons x rest ih =>
    have hrest := ih (i + 1) (fun j hj => h j (by omega))
    simp [cleanupLoop, h i (by omega), hrest]

theorem cleanupLoop_fail_at {α : Type} (mkCall : α → ApiCall) (mkErr : α → String)
    (i m : Nat) (xs : List α) (hm : m < xs.length) :
    cleanupLoop mkCall mkErr false (fun j => decide (j = i + m)) i xs
      = (xs.length - 1, [mkErr (xs.get ⟨m, hm⟩)], xs.map mkCall) := by
  induction xs generalizing i m with
  | nil => simp at hm
  | cons x rest ih =>
    cases m with
    | zero =>
      have hafter : ∀ j, i + 1 ≤ j → (fun j => decide (j = i)) j = false := by
        intro j hj
        simp
        omega
      have hrest := cleanupLoop_nofail mkCall mkErr
        (fun j => decide (j = i)) (i + 1) rest hafter
      have horacle : (fun j => decide (j = i + 0)) = (fun j => decide (j = i)) := by
        funext j
        rw [Nat.add_zero]
      rw [horacle]
      simp [cleanupLoop, hrest]
    | succ m0 =>
      have hm0 : m0 < rest.length := by
        simpa using Nat.lt_of_succ_lt_succ hm
      have horacle : (fun j => decide (j = i + (m0 + 1)))
          = (fun j => decide (j = (i + 1) + m0)) := by
        funext j
        have : i + (m0 + 1) = (i + 1) + m0 := by omega
        rw [this]
      have hrest := ih (i + 1) m0 hm0
      rw [horacle] at *
      have hhead : decide (i = (i + 1) + m0) = false := by
        simp
        omega
      have hlen : rest.length - 1 + 1 = rest.length := by omega
      simp [cleanupLoop, hhead, hrest, hlen]

theorem clean_stopped_instances_dry (confirm : InstanceRecord → Bool)
    (failsAt : Nat → Bool) (i : Nat) (insts : List InstanceRecord) :
    clean_stopped_instances true confirm failsAt i insts = (0, [], []) := by
  induction insts generalizing i with
  | nil => rfl
  | cons x rest ih => simp [clean_stopped_instances, ih]

/-! ## The dead transition test of the CLI stopped-instance finder -/

theorem strHasSub_length_le (needle : List Char) (hay : List Char)
    (h : strHasSub needle hay = true) : needle.length ≤ hay.length := by
  induction hay with
  | nil =>
    simp [strHasSub, List.isEmpty_iff] at h
    simp [h]
  | cons c rest ih =>
    simp only [strHasSub, Bool.or_eq_true] at h
    rcases h with h | h
    · exact (List.isPrefixOf_iff_prefix.mp h).length_le
    · have := ih h
      simp
      omega

theorem stoppedCharHit_false (c : Char) : stoppedCharHit c = false := by
  cases hx : stoppedCharHit c with
  | false => rfl
  | true =>
    exfalso
    rw [stoppedCharHit] at hx
    have hle := strHasSub_length_le "stopped".toList [c.toLower] hx
    have h7 : ("stopped".toList).length = 7 := by decide
    rw [h7] at hle
    simp at hle

theorem cliTransitionHits_nil (s : String) : cliTransitionHits s = [] := by
  rw [cliTransitionHits, List.filter_eq_nil_iff]
  intro c _
  simp [stoppedCharHit_false]

theorem cliInstContribution_nil (now days : Int) (i : InstRaw) :
    cliInstContribution now days i = [] := by
  simp [cliInstContribution, cliTransitionHits_nil]

theorem find_stopped_in_reservation_nil (now days : Int) (res : List InstRaw) :
    find_stopped_in_reservation now days res = [] := by
  induction res with
  | nil => rfl
  | cons i rest ih =>
    simp [find_stopped_in_reservation, cliInstContribution_nil, ih]

theorem find_stopped_instances_empty (now days : Int)
    (resp : List (List InstRaw)) :
    find_stopped_instances now days resp = [] := by
  induction resp with
  | nil => rfl
  | cons res rest ih =>
    simp [find_stopped_instances, find_stopped_in_reservation_nil, ih]

/-! ## Snapshot finder characterization -/

theorem find_old_snapshots_eq_filter (now days : Int) (resp : List SnapRaw) :
    find_old_snapshots now days resp
      = (resp.filter (fun s => decide (s.startTime.wall < now - days * 86400))).map
          projectSnapshot := by
  induction resp with
  | nil => rfl
  | cons s rest ih =>
    by_cases h : s.startTime.wall < now - days * 86400 <;>
      simp [find_old_snapshots, List.filter, h, ih]

theorem find_old_snapshots_l_eq_filter (now days : Int) (resp : List SnapRaw) :
    find_old_snapshots_l now days resp
      = (resp.filter (fun s => decide (s.startTime.wall < now - days * 86400))).map
          projectSnapshotL := by
  induction resp with
  | nil => rfl
  | cons s rest ih =>
    by_cases h : s.startTime.wall < now - days * 86400 <;>
      simp [find_old_snapshots_l, List.filter, h, ih]

theorem snapId_inj_of_nodup (resp : List SnapRaw)
    (hnd : (resp.map SnapRaw.snapshotId).Nodup) :
    ∀ t ∈ resp, ∀ s ∈ resp, t.snapshotId = s.snapshotId → t = s := by
  intro t ht s hs h
  exact List.inj_on_of_nodup_map hnd ht hs h

/-! ## Aggregation and region-loop characterizations -/

theorem aggregateResults_from (rs : List CleanupResult) :
    ∀ acc : Totals × List String,
      rs.foldl aggStep acc
        = ({ eips := acc.1.eips + (rs.map (fun r => r.cleaned.eips)).sum
             snapshots := acc.1.snapshots + (rs.map (fun r => r.cleaned.snapshots)).sum
             instances := acc.1.instances + (rs.map (fun r => r.cleaned.instances)).sum },
           acc.2 ++ (rs.map (fun r => r.errors)).flatten) := by
  induction rs with
  | nil =>
    intro acc
    simp
  | cons r rest ih =>
    intro acc
    simp only [List.foldl_cons, ih, aggStep, List.map_cons, List.sum_cons,
      List.flatten_cons, List.append_assoc]
    simp [Nat.add_assoc]

theorem aggregateResults_eq (rs : List CleanupResult) :
    aggregateResults rs
      = ({ eips := (rs.map (fun r => r.cleaned.eips)).sum
           snapshots := (rs.map (fun r => r.cleaned.snapshots)).sum
           instances := (rs.map (fun r => r.cleaned.instances)).sum },
         (rs.map (fun r => r.errors)).flatten) := by
  have h := aggregateResults_from rs (⟨0, 0, 0⟩, [])
  simpa [aggregateResults] using h

theorem cliMain_from (cfg : CliConfig) (envOf : String → RegionEnv)
    (confOf : String → Confirms) (regions : List String) :
    ∀ acc : Totals × List ApiCall,
      regions.foldl (cliStep cfg envOf confOf) acc
        = ({ eips := acc.1.eips
               + (regions.map (fun r => (regionPass cfg (envOf r) (confOf r)).1.eips)).sum
             snapshots := acc.1.snapshots
               + (regions.map (fun r => (regionPass cfg (envOf r) (confOf r)).1.snapshots)).sum
             instances := acc.1.instances
               + (regions.map (fun r => (regionPass cfg (envOf r) (confOf r)).1.instances)).sum },
           acc.2 ++ (regions.map (fun r => (regionPass cfg (envOf r) (confOf r)).2)).flatten) := by
  induction regions with
  | nil =>
    intro acc
    simp
  | cons r rest ih =>
    intro acc
    simp only [List.foldl_cons, ih, cliStep, accAdd, List.map_cons, List.sum_cons,
      List.flatten_cons, List.append_assoc]
    simp [Nat.add_assoc]

theorem cliMain_eq (cfg : CliConfig) (regions : List String)
    (envOf : String → RegionEnv) (confOf : String → Confirms) :
    cliMain cfg regions envOf confOf
      = ({ eips := (regions.map (fun r => (regionPass cfg (envOf r) (confOf r)).1.eips)).sum
           snapshots :=
             (regions.map (fun r => (regionPass cfg (envOf r) (confOf r)).1.snapshots)).sum
           instances :=
             (regions.map (fun r => (regionPass cfg (envOf r) (confOf r)).1.instances)).sum },
         (regions.map (fun r => (regionPass cfg (envOf r) (confOf r)).2)).flatten) := by
  have h := cliMain_from cfg envOf confOf regions (⟨0, 0, 0⟩, [])
  simpa [cliMain] using h

/-! ## Dry-run behavior of the composed operations -/

theorem clean_elastic_ips_dry (failsAt : Nat → Bool) (eips : List EipRec) :
    clean_elastic_ips true failsAt eips = (eips.length, [], []) := by
  rw [clean_elastic_ips, cleanupLoop_dry]

theorem clean_snapshots_dry (failsAt : Nat → Bool) (snaps : List SnapshotRecord) :
    clean_snapshots true failsAt snaps = (snaps.length, [], []) := by
  rw [clean_snapshots, cleanupLoop_dry]

theorem eipStage_dry (cfg : LambdaConfig) (env : RegionEnv) (h : cfg.dryRun = true) :
    eipStage cfg env
      = ((if cfg.cleanEips then (find_unused_elastic_ips env.addresses).length else 0),
         [], []) := by
  simp only [eipStage, h]
  split
  · rw [cleanupLoop_dry]
  · rfl

theorem snapStage_dry (cfg : LambdaConfig) (env : RegionEnv) (h : cfg.dryRun = true) :
    snapStage cfg env
      = ((if cfg.cleanSnapshots then
            match cfg.snapshotDays with
            | some d => (find_old_snapshots_l env.now d env.snapshots).length
            | none => 0
          else 0),
         [], []) := by
  simp only [snapStage, h]
  split
  · split
    · rw [cleanupLoop_dry]
    · rfl
  · rfl

theorem instStage_dry (cfg : LambdaConfig) (env : RegionEnv) (h : cfg.dryRun = true) :
    instStage cfg env
      = ((if cfg.cleanInstances then
            match cfg.instanceDays with
            | some d => (find_stopped_instances_l env.now d env.reservations).length
            | none => 0
          else 0),
         [], []) := by
  simp only [instStage, h]
  split
  · split
    · rw [cleanupLoop_dry]
    · rfl
  · rfl

theorem cleanup_resources_dry (cfg : LambdaConfig) (env : RegionEnv)
    (h : cfg.dryRun = true) :
    (cleanup_resources cfg env).2 = [] ∧ (cleanup_resources cfg env).1.errors = [] := by
  have he := eipStage_dry cfg env h
  have hs := snapStage_dry cfg env h
  have hi := instStage_dry cfg env h
  constructor
  · simp [cleanup_resources, he, hs, hi]
  · simp [cleanup_resources, he, hs, hi]

theorem regionStageInstances_dry (cfg : CliConfig) (env : RegionEnv)
    (conf : Confirms) (acc : Totals × List ApiCall) (h : cfg.dryRun = true) :
    (regionStageInstances cfg env conf acc).2 = acc.2 := by
  simp only [regionStageInstances, h, Bool.not_true, Bool.false_and]
  split
  · split
    · rfl
    · simp [clean_stopped_instances_dry, accAdd]
  · rfl

theorem regionStageSnapshots_dry (cfg : CliConfig) (env : RegionEnv)
    (conf : Confirms) (acc : Totals × List ApiCall) (h : cfg.dryRun = true) :
    (regionStageSnapshots cfg env conf acc).2 = acc.2 := by
  simp only [regionStageSnapshots, h, Bool.not_true, Bool.false_and]
  split
  · split
    · rw [regionStageInstances_dry cfg env conf acc h]
    · rw [if_neg (by simp : ¬(false = true))]
      rw [regionStageInstances_dry cfg env conf _ h]
      simp [clean_snapshots_dry, accAdd]
  · rw [regionStageInstances_dry cfg env conf acc h]

theorem regionStageEips_dry (cfg : CliConfig) (env : RegionEnv)
    (conf : Confirms) (acc : Totals × List ApiCall) (h : cfg.dryRun = true) :
    (regionStageEips cfg env conf acc).2 = acc.2 := by
  simp only [regionStageEips, h, Bool.not_true, Bool.false_and]
  split
  · split
    · rw [regionStageSnapshots_dry cfg env conf acc h]
    · rw [if_neg (by simp : ¬(false = true))]
      rw [regionStageSnapshots_dry cfg env conf _ h]
      simp [clean_elastic_ips_dry, accAdd]
  · rw [regionStageSnapshots_dry cfg env conf acc h]

theorem regionPass_dry (cfg : CliConfig) (env : RegionEnv) (conf : Confirms)
    (h : cfg.dryRun = true) :
    (regionPass cfg env conf).2 = [] := by
  have := regionStageEips_dry cfg env conf (⟨0, 0, 0⟩, []) h
  simpa [regionPass] using this

theorem cliMain_dry (cfg : CliConfig) (regions : List String)
    (envOf : String → RegionEnv) (confOf : String → Confirms)
    (h : cfg.dryRun = true) :
    (cliMain cfg regions envOf confOf).2 = [] := by
  rw [cliMain_eq]
  simp [regionPass_dry _ _ _ h]

/-! ## Concrete instances used by witnesses and counterexamples -/

/-- A candidate VPC address record. -/
def eipRecW : EipRec :=
  { allocationId := some "eipalloc-w", publicIp := some "198.51.100.1", domain := "vpc" }

/-- A candidate snapshot record. -/
def snapRecW : SnapshotRecord :=
  { snapshotId := "snap-w", description := "No description",
    startTime := ⟨0, Option.none⟩, volumeSize := 8 }

/-- A candidate stopped-instance record. -/
def instRecW : InstanceRecord :=
  { instanceId := "i-w", instanceType := "t2.micro",
    launchTime := ⟨0, Option.none⟩, state := "stopped", name := "No Name" }

/-- A region world with one unattached VPC address and one old snapshot. -/
def envW : RegionEnv :=
  { now := 10000000
    addresses := [⟨Option.none, Option.none, some "eipalloc-w",
      some "198.51.100.1", some "vpc"⟩]
    snapshots := [⟨"snap-w", Option.none, ⟨0, Option.none⟩, 8⟩]
    reservations := []
    failsEip := fun _ => false
    failsSnap := fun _ => false
    failsInst := fun _ => false }

/-- A fully-enabled dry-run Lambda configuration. -/
def lcfgDryW : LambdaConfig :=
  { dryRun := true, cleanEips := true, cleanSnapshots := true,
    cleanInstances := true, snapshotDays := some 30, instanceDays := some 7 }

/-- A fully-enabled dry-run CLI configuration. -/
def ccfgDryW : CliConfig :=
  { dryRun := true, cleanEips := true, cleanSnapshots := true,
    cleanInstances := true, days := 30, force := false }

/-- All-yes operator answers. -/
def confW : Confirms :=
  { eips := true, snapshots := true, instances := true, perInstance := fun _ => true }

/-- An empty region world. -/
def emptyEnvW : RegionEnv :=
  { now := 0, addresses := [], snapshots := [], reservations := []
    failsEip := fun _ => false, failsSnap := fun _ => false, failsInst := fun _ => false }

/-! ## Claims -/

/-- C1: when the dry-run flag is true, no mutating provider call
(release-address, delete-snapshot, terminate-instances) is ever issued, for
every resource kind and every candidate list, regardless of the enable
flags, in both the interactive flavor (per-kind cleaners, one region pass,
the whole region loop of `main`) and the event-driven flavor
(`cleanup_resources`). -/
theorem dry_run_never_mutates
    (d : Bool) (hd : d = true)
    (failsE failsS failsI : Nat → Bool) (confirm : InstanceRecord → Bool)
    (eips : List EipRec) (snaps : List SnapshotRecord) (insts : List InstanceRecord)
    (cfg : LambdaConfig) (env : RegionEnv) (hcfg : cfg.dryRun = true)
    (ccfg : CliConfig) (cenv : RegionEnv) (conf : Confirms) (hccfg : ccfg.dryRun = true)
    (regions : List String) (envOf : String → RegionEnv) (confOf : String → Confirms) :
    (clean_elastic_ips d failsE eips).2.2 = []
      ∧ (clean_snapshots d failsS snaps).2.2 = []
      ∧ (clean_stopped_instances d confirm failsI 0 insts).2.2 = []
      ∧ (cleanup_resources cfg env).2 = []
      ∧ (regionPass ccfg cenv conf).2 = []
      ∧ (cliMain ccfg regions envOf confOf).2 = [] := by
  subst hd
  refine ⟨?_, ?_, ?_, ?_, ?_, ?_⟩
  · rw [clean_elastic_ips_dry]
  · rw [clean_snapshots_dry]
  · rw [clean_stopped_instances_dry]
  · exact (cleanup_resources_dry cfg env hcfg).1
  · exact regionPass_dry ccfg cenv conf hccfg
  · exact cliMain_dry ccfg regions envOf confOf hccfg

/-- Witness for C1 at concrete inputs: nonempty candidate lists of every
kind, all enable flags on, dry-run on; no mutating call is issued anywhere. -/
theorem dry_run_never_mutates_witness :
    (clean_elastic_ips true (fun _ => false) [eipRecW]).2.2 = []
      ∧ (clean_snapshots true (fun _ => false) [snapRecW]).2.2 = []
      ∧ (clean_stopped_instances true (fun _ => true) (fun _ => false) 0 [instRecW]).2.2 = []
      ∧ (cleanup_resources lcfgDryW envW).2 = []
      ∧ (regionPass ccfgDryW envW confW).2 = []
      ∧ (cliMain ccfgDryW ["us-east-1"] (fun _ => envW) (fun _ => confW)).2 = [] :=
  dry_run_never_mutates true rfl (fun _ => false) (fun _ => false) (fun _ => false)
    (fun _ => true) [eipRecW] [snapRecW] [instRecW] lcfgDryW envW rfl
    ccfgDryW envW confW rfl ["us-east-1"] (fun _ => envW) (fun _ => confW)

/-- The instance used against C2: stopped, launched far before the cutoff. -/
def instOldStoppedC2 : InstRaw :=
  { instanceId := "i-c2", instanceType := "t3.large",
    launchTime := ⟨0, some 0⟩
    stateName := "stopped"
    stateTransitionReason := some "User initiated shutdown"
    tags := [("Name", "legacy-batch")] }

/-- C2 is false on the code: on the same provider response (one reservation
holding one stopped instance launched far before the 7-day cutoff) the CLI
`find_stopped_instances` returns the empty list while the Lambda twin
returns the instance.  The root cause is the dead per-character transition
test of aws_cleaner.py lines 97-98 (the CLI finder can never include
anything), which contradicts the shared-discovery-logic claim. -/
theorem cli_lambda_finders_diverge :
    find_stopped_instances 100000000 7 [[instOldStoppedC2]] = []
      ∧ find_stopped_instances_l 100000000 7 [[instOldStoppedC2]]
          = [projectInstanceL instOldStoppedC2]
      ∧ instOldStoppedC2.stateName = "stopped"
      ∧ instOldStoppedC2.launchTime.wall < 100000000 - 7 * 86400 := by
  refine ⟨?_, by decide, by decide, by decide⟩
  exact find_stopped_instances_empty 100000000 7 [[instOldStoppedC2]]

/-- The instance used against C3: state stopped, launched two years before
the cutoff, with a realistic transition reason. -/
def instOldStoppedC3 : InstRaw :=
  { instanceId := "i-c3", instanceType := "m5.xlarge"
    launchTime := ⟨100, Option.none⟩
    stateName := "stopped"
    stateTransitionReason := some "User initiated 2024-01-15 10 00 00 GMT"
    tags := [] }

/-- C3 is false on the CLI code: an instance satisfying the claimed
inclusion predicate (state stopped, launch time strictly before now minus
the threshold) is nevertheless not returned by the CLI
`find_stopped_instances`, whose per-character transition test never
matches; the Lambda version includes it as the claim (and the CLI
docstring) intend. -/
theorem cli_stopped_finder_misses_old_instance :
    instOldStoppedC3.stateName = "stopped"
      ∧ instOldStoppedC3.launchTime.wall < 100000000 - 7 * 86400
      ∧ find_stopped_instances 100000000 7 [[instOldStoppedC3]] = []
      ∧ find_stopped_instances_l 100000000 7 [[instOldStoppedC3]]
          = [projectInstanceL instOldStoppedC3] := by
  refine ⟨by decide, by decide, ?_, by decide⟩
  exact find_stopped_instances_empty 100000000 7 [[instOldStoppedC3]]

/-- C4: a cleaner returns the pair of processed count and per-item error
messages (here together with the reified call trace); in live mode, when
exactly the call for item k raises, every item is still attempted (the
trace holds one call per candidate, in order), the count is N-1, and the
error list is exactly one entry keyed to item k — both for the CLI
`clean_elastic_ips` and for the EIP loop of the Lambda
`cleanup_resources`. -/
theorem cleaner_failure_isolation
    (eips : List EipRec) (k : Nat) (hk : k < eips.length)
    (cfg : LambdaConfig) (env : RegionEnv)
    (h1 : cfg.dryRun = false) (h2 : cfg.cleanEips = true)
    (h3 : cfg.cleanSnapshots = false) (h4 : cfg.cleanInstances = false)
    (henv : env.failsEip = fun j => decide (j = k))
    (hk2 : k < (find_unused_elastic_ips env.addresses).length) :
    (clean_elastic_ips false (fun j => decide (j = k)) eips).1 = eips.length - 1
      ∧ (clean_elastic_ips false (fun j => decide (j = k)) eips).2.1
          = [eipErrMsg (eips.get ⟨k, hk⟩)]
      ∧ (clean_elastic_ips false (fun j => decide (j = k)) eips).2.2 = eips.map eipCall
      ∧ (cleanup_resources cfg env).1.cleaned.eips
          = (find_unused_elastic_ips env.addresses).length - 1
      ∧ (cleanup_resources cfg env).1.errors
          = [eipErrMsg ((find_unused_elastic_ips env.addresses).get ⟨k, hk2⟩)]
      ∧ (cleanup_resources cfg env).2
          = (find_unused_elastic_ips env.addresses).map eipCall := by
  have horacle : (fun j => decide (j = k)) = (fun j => decide (j = 0 + k)) := by
    funext j
    rw [Nat.zero_add]
  have hcli := cleanupLoop_fail_at eipCall eipErrMsg 0 k eips hk
  rw [← horacle] at hcli
  have hstage : eipStage cfg env
      = ((find_unused_elastic_ips env.addresses).length - 1,
         [eipErrMsg ((find_unused_elastic_ips env.addresses).get ⟨k, hk2⟩)],
         (find_unused_elastic_ips env.addresses).map eipCall) := by
    have hl := cleanupLoop_fail_at eipCall eipErrMsg 0 k
      (find_unused_elastic_ips env.addresses) hk2
    rw [← horacle] at hl
    rw [eipStage, if_pos h2, h1, henv]
    exact hl
  have hsnap : snapStage cfg env = (0, [], []) := by
    simp [snapStage, h3]
  have hinst : instStage cfg env = (0, [], []) := by
    simp [instStage, h4]
  refine ⟨?_, ?_, ?_, ?_, ?_, ?_⟩
  · rw [clean_elastic_ips, hcli]
  · rw [clean_elastic_ips, hcli]
  · rw [clean_elastic_ips, hcli]
  · simp [cleanup_resources, hstage, hsnap, hinst]
  · simp [cleanup_resources, hstage, hsnap, hinst]
  · simp [cleanup_resources, hstage, hsnap, hinst]

/-- Three concrete candidate addresses for the C4 witness. -/
def eipW1 : EipRec := ⟨some "eipalloc-1", some "203.0.113.11", "vpc"⟩

/-- Second candidate (the failing one). -/
def eipW2 : EipRec := ⟨Option.none, some "203.0.113.12", "classic"⟩

/-- Third candidate (attempted after the failure). -/
def eipW3 : EipRec := ⟨some "eipalloc-3", some "203.0.113.13", "vpc"⟩

/-- The Lambda configuration of the C4 witness: live mode, EIPs only. -/
def lcfgLiveEipsW : LambdaConfig :=
  { dryRun := false, cleanEips := true, cleanSnapshots := false,
    cleanInstances := false, snapshotDays := some 30, instanceDays := some 7 }

/-- The C4 witness region: three unattached addresses, the release of the
second one (index 1) raising. -/
def envFailW : RegionEnv :=
  { now := 10000000
    addresses :=
      [⟨Option.none, Option.none, some "eipalloc-1", some "203.0.113.11", some "vpc"⟩,
       ⟨Option.none, Option.none, Option.none, some "203.0.113.12", Option.none⟩,
       ⟨Option.none, Option.none, some "eipalloc-3", some "203.0.113.13", some "vpc"⟩]
    snapshots := []
    reservations := []
    failsEip := fun j => decide (j = 1)
    failsSnap := fun _ => false
    failsInst := fun _ => false }

/-- Witness for C4: three candidates, the second release raises; the count
is 2, the single error is keyed to the second address, and all three calls
were issued, in both flavors. -/
theorem cleaner_failure_isolation_witness :
    (clean_elastic_ips false (fun j => decide (j = 1)) [eipW1, eipW2, eipW3]).1 = 2
      ∧ (clean_elastic_ips false (fun j => decide (j = 1)) [eipW1, eipW2, eipW3]).2.1
          = [eipErrMsg eipW2]
      ∧ (clean_elastic_ips false (fun j => decide (j = 1)) [eipW1, eipW2, eipW3]).2.2
          = [eipCall eipW1, eipCall eipW2, eipCall eipW3]
      ∧ (cleanup_resources lcfgLiveEipsW envFailW).1.cleaned.eips = 2
      ∧ (cleanup_resources lcfgLiveEipsW envFailW).1.errors
          = ["Error releasing EIP 203.0.113.12"] := by
  have h := cleaner_failure_isolation [eipW1, eipW2, eipW3] 1 (by decide)
    lcfgLiveEipsW envFailW rfl rfl rfl rfl rfl (by decide)
  refine ⟨h.1, ?_, h.2.2.1, ?_, ?_⟩
  · rw [h.2.1]
    decide
  · rw [h.2.2.2.1]
    decide
  · rw [h.2.2.2.2.1]
    decide

/-- The old snapshot of the C5 witness. -/
def snapOldW : SnapRaw := ⟨"snap-old", some "old data", ⟨0, some 0⟩, 100⟩

/-- The boundary snapshot of the C5 witness, created exactly at the
threshold instant. -/
def snapBndW : SnapRaw := ⟨"snap-bnd", Option.none, ⟨7408000, Option.none⟩, 200⟩

/-- C5: a snapshot record of the provider response is included by
`find_old_snapshots` (both flavors) iff its tz-stripped creation timestamp
is strictly before now minus the threshold; a snapshot created exactly at
the threshold instant is excluded.  Snapshot identifiers of one response
are distinct (an AWS guarantee), which makes per-record membership
unambiguous. -/
theorem snapshot_finder_membership (now days : Int) (resp : List SnapRaw) (s : SnapRaw)
    (hnd : (resp.map SnapRaw.snapshotId).Nodup) (hs : s ∈ resp) :
    (projectSnapshot s ∈ find_old_snapshots now days resp
        ↔ s.startTime.wall < now - days * 86400)
      ∧ (projectSnapshotL s ∈ find_old_snapshots_l now days resp
          ↔ s.startTime.wall < now - days * 86400)
      ∧ (s.startTime.wall = now - days * 86400
          → projectSnapshot s ∉ find_old_snapshots now days resp) := by
  have hinj := snapId_inj_of_nodup resp hnd
  have hA : projectSnapshot s ∈ find_old_snapshots now days resp
      ↔ s.startTime.wall < now - days * 86400 := by
    rw [find_old_snapshots_eq_filter]
    constructor
    · intro hmem
      rcases List.mem_map.mp hmem with ⟨t, htf, hproj⟩
      rcases List.mem_filter.mp htf with ⟨htr, hpred⟩
      have hid : t.snapshotId = s.snapshotId :=
        congrArg SnapshotRecord.snapshotId hproj
      have hts : t = s := hinj t htr s hs hid
      rw [hts] at hpred
      simpa using hpred
    · intro hlt
      exact List.mem_map_of_mem _ (List.mem_filter.mpr ⟨hs, by simpa using hlt⟩)
  have hB : projectSnapshotL s ∈ find_old_snapshots_l now days resp
      ↔ s.startTime.wall < now - days * 86400 := by
    rw [find_old_snapshots_l_eq_filter]
    constructor
    · intro hmem
      rcases List.mem_map.mp hmem with ⟨t, htf, hproj⟩
      rcases List.mem_filter.mp htf with ⟨htr, hpred⟩
      have hid : t.snapshotId = s.snapshotId :=
        congrArg SnapshotRecordL.snapshotId hproj
      have hts : t = s := hinj t htr s hs hid
      rw [hts] at hpred
      simpa using hpred
    · intro hlt
      exact List.mem_map_of_mem _ (List.mem_filter.mpr ⟨hs, by simpa using hlt⟩)
  refine ⟨hA, hB, ?_⟩
  intro heq hmem
  have hlt := hA.mp hmem
  omega

/-- Witness for C5: with now = 10000000 and a 30-day threshold (cutoff
7408000), the old snapshot is included by both flavors and the snapshot
created exactly at the cutoff is excluded. -/
theorem snapshot_finder_membership_witness :
    projectSnapshot snapOldW ∈ find_old_snapshots 10000000 30 [snapOldW, snapBndW]
      ∧ projectSnapshot snapBndW ∉ find_old_snapshots 10000000 30 [snapOldW, snapBndW]
      ∧ projectSnapshotL snapOldW ∈ find_old_snapshots_l 10000000 30 [snapOldW, snapBndW] := by
  have h1 := snapshot_finder_membership 10000000 30 [snapOldW, snapBndW] snapOldW
    (by decide) (by decide)
  have h2 := snapshot_finder_membership 10000000 30 [snapOldW, snapBndW] snapBndW
    (by decide) (by decide)
  exact ⟨h1.1.mpr (by decide), h2.2.2 (by decide), h1.2.1.mpr (by decide)⟩

/-- C6: in live mode every cleaned floating-address record triggers exactly
one release call, release-by-allocation-id iff its domain classifier is
"vpc" and release-by-public-address otherwise (in particular for "classic");
a record whose provider entry lacked the Domain key was given the default
"classic" by the finder projection, hence also releases by public address.
Holds for the CLI cleaner and for the EIP loop of `cleanup_resources`. -/
theorem eip_release_branching (failsAt : Nat → Bool) (eips : List EipRec) :
    (clean_elastic_ips false failsAt eips).2.2 = eips.map eipCall
      ∧ (∀ e : EipRec, e.domain = "vpc"
          → eipCall e = ApiCall.releaseAllocationId e.allocationId)
      ∧ (∀ e : EipRec, e.domain ≠ "vpc"
          → eipCall e = ApiCall.releasePublicIp e.publicIp)
      ∧ (∀ raw : EipRaw, raw.domain = Option.none → (projectEip raw).domain = "classic")
      ∧ (∀ (cfg : LambdaConfig) (env : RegionEnv),
          cfg.dryRun = false → cfg.cleanEips = true → env.failsEip = failsAt
          → (eipStage cfg env).2.2 = (find_unused_elastic_ips env.addresses).map eipCall) := by
  refine ⟨?_, ?_, ?_, ?_, ?_⟩
  · rw [clean_elastic_ips, cleanupLoop_live_trace]
  · intro e he
    simp [eipCall, he]
  · intro e he
    simp [eipCall, he]
  · intro raw hr
    simp [projectEip, hr]
  · intro cfg env h1 h2 h3
    rw [eipStage, if_pos h2, h1, h3, cleanupLoop_live_trace]

/-- A VPC-domain candidate for the C6 witness. -/
def eipVpcW : EipRec := ⟨some "eipalloc-v", some "203.0.113.21", "vpc"⟩

/-- A classic-domain candidate for the C6 witness. -/
def eipClassicW : EipRec := ⟨Option.none, some "203.0.113.22", "classic"⟩

/-- A raw address entry without a Domain key for the C6 witness. -/
def eipRawNoDomW : EipRaw :=
  ⟨Option.none, Option.none, Option.none, some "203.0.113.23", Option.none⟩

/-- Witness for C6: the vpc record releases by allocation id, the classic
one by public address, a domainless raw entry defaults to classic, and the
live trace is exactly one call per record, in order. -/
theorem eip_release_branching_witness :
    (clean_elastic_ips false (fun _ => false) [eipVpcW, eipClassicW]).2.2
        = [eipCall eipVpcW, eipCall eipClassicW]
      ∧ eipCall eipVpcW = ApiCall.releaseAllocationId (some "eipalloc-v")
      ∧ eipCall eipClassicW = ApiCall.releasePublicIp (some "203.0.113.22")
      ∧ (projectEip eipRawNoDomW).domain = "classic" := by
  have h := eip_release_branching (fun _ => false) [eipVpcW, eipClassicW]
  exact ⟨h.1, h.2.1 eipVpcW rfl, h.2.2.1 eipClassicW (by decide),
    h.2.2.2.1 eipRawNoDomW rfl⟩

/-- The C7 run configuration: live mode, not forced, EIPs and snapshots
enabled. -/
def cfgC7 : CliConfig :=
  { dryRun := false, cleanEips := true, cleanSnapshots := true,
    cleanInstances := false, days := 30, force := false }

/-- The C7 region world: one unattached vpc address and one old snapshot. -/
def envC7 : RegionEnv :=
  { now := 10000000
    addresses := [⟨Option.none, Option.none, some "eipalloc-7",
      some "203.0.113.7", some "vpc"⟩]
    snapshots := [⟨"snap-c7", Option.none, ⟨0, Option.none⟩, 8⟩]
    reservations := []
    failsEip := fun _ => false
    failsSnap := fun _ => false
    failsInst := fun _ => false }

/-- The C7 operator answers: decline the EIP confirmation, accept the
snapshot confirmation. -/
def confC7 : Confirms :=
  { eips := false, snapshots := true, instances := true, perInstance := fun _ => true }

/-- Counterexample to C7 as stated: with the EIP confirmation declined the
region pass cleans nothing at all — the snapshot kind of the same region is
not processed, although a snapshot candidate exists and its own
confirmation would be accepted (last conjunct: the identical run without
the EIP kind does clean that snapshot).  The `continue` of
aws_cleaner.py line 236 abandons the remaining kinds of the region. -/
theorem region_confirm_decline_counterexample :
    regionPass cfgC7 envC7 confC7 = (⟨0, 0, 0⟩, [])
      ∧ find_old_snapshots envC7.now cfgC7.days envC7.snapshots
          = [projectSnapshot ⟨"snap-c7", Option.none, ⟨0, Option.none⟩, 8⟩]
      ∧ confC7.snapshots = true
      ∧ regionPass { cfgC7 with cleanEips := false } envC7 confC7
          = (⟨0, 1, 0⟩, [ApiCall.deleteSnapshot "snap-c7"]) := by
  refine ⟨by decide, by decide, rfl, by decide⟩

/-- C7 as amended, for every decline site of the region loop (live mode,
not forced): a declined top-level confirmation abandons the remainder of
that region loop body, retaining the kinds already cleaned in that region.
Concretely: a declined EIP confirmation (EIP candidates present) makes the
whole region contribute nothing; a declined snapshot confirmation
(snapshot candidates present) leaves any accumulated EIP work of the
region unchanged and also skips the instance block behind it; a declined
instance confirmation leaves all earlier work of the region unchanged — the
instance block is the last one, and since the CLI stopped-instance finder
never produces a candidate (the C3 defect) its prompt site is unreachable,
so the skip is stated for every candidate list, empty or not.  Later
regions are processed independently and the run always reaches the
summary, whose totals are the per-region sums. -/
theorem region_confirm_decline_skips_region
    (cfg : CliConfig) (env : RegionEnv) (conf : Confirms)
    (h2 : cfg.dryRun = false) (h3 : cfg.force = false) :
    (cfg.cleanEips = true → conf.eips = false
        → find_unused_elastic_ips env.addresses ≠ []
        → regionPass cfg env conf = (⟨0, 0, 0⟩, []))
      ∧ (∀ acc : Totals × List ApiCall,
          cfg.cleanSnapshots = true → conf.snapshots = false
          → find_old_snapshots env.now cfg.days env.snapshots ≠ []
          → regionStageSnapshots cfg env conf acc = acc)
      ∧ (∀ acc : Totals × List ApiCall,
          cfg.cleanInstances = true → conf.instances = false
          → regionStageInstances cfg env conf acc = acc)
      ∧ (∀ (regions : List String) (envOf : String → RegionEnv)
            (confOf : String → Confirms),
          (cliMain cfg regions envOf confOf).1.eips
              = (regions.map (fun r => (regionPass cfg (envOf r) (confOf r)).1.eips)).sum
            ∧ (cliMain cfg regions envOf confOf).1.snapshots
              = (regions.map
                  (fun r => (regionPass cfg (envOf r) (confOf r)).1.snapshots)).sum
            ∧ (cliMain cfg regions envOf confOf).1.instances
              = (regions.map
                  (fun r => (regionPass cfg (envOf r) (confOf r)).1.instances)).sum) := by
  refine ⟨?_, ?_, ?_, ?_⟩
  · intro h1 h4 h5
    have hne : (find_unused_elastic_ips env.addresses).isEmpty = false := by
      cases hfe : find_unused_elastic_ips env.addresses with
      | nil => exact absurd hfe h5
      | cons a l => rfl
    simp [regionPass, regionStageEips, h1, h2, h3, h4, hne]
  · intro acc h1 h4 h5
    have hne : (find_old_snapshots env.now cfg.days env.snapshots).isEmpty = false := by
      cases hfe : find_old_snapshots env.now cfg.days env.snapshots with
      | nil => exact absurd hfe h5
      | cons a l => rfl
    simp [regionStageSnapshots, h1, h2, h3, h4, hne]
  · intro acc h1 h4
    by_cases he : (find_stopped_instances env.now cfg.days env.reservations).isEmpty = true
    · simp [regionStageInstances, h1, he]
    · rw [Bool.not_eq_true] at he
      simp [regionStageInstances, h1, h2, h3, h4, he]
  · intro regions envOf confOf
    rw [cliMain_eq]
    exact ⟨rfl, rfl, rfl⟩

/-- The C7 witness configuration with every kind enabled. -/
def cfgAllC7 : CliConfig :=
  { dryRun := false, cleanEips := true, cleanSnapshots := true,
    cleanInstances := true, days := 30, force := false }

/-- Operator answers declining only the snapshot confirmation. -/
def confSnapDeclW : Confirms :=
  { eips := true, snapshots := false, instances := true, perInstance := fun _ => true }

/-- Operator answers declining only the instance confirmation. -/
def confInstDeclW : Confirms :=
  { eips := true, snapshots := true, instances := false, perInstance := fun _ => true }

/-- Witness for the amended C7, one instantiation per decline site: the
EIP-declined region contributes nothing; the snapshot decline leaves a
concrete accumulator holding the region EIP work unchanged; the instance
decline leaves a concrete accumulator holding earlier EIP and snapshot
work unchanged. -/
theorem region_confirm_decline_skips_region_witness :
    regionPass cfgC7 envC7 confC7 = (⟨0, 0, 0⟩, [])
      ∧ regionStageSnapshots cfgC7 envC7 confSnapDeclW
          (⟨1, 0, 0⟩, [ApiCall.releaseAllocationId (some "eipalloc-7")])
          = (⟨1, 0, 0⟩, [ApiCall.releaseAllocationId (some "eipalloc-7")])
      ∧ regionStageInstances cfgAllC7 envC7 confInstDeclW
          (⟨1, 1, 0⟩, [ApiCall.releaseAllocationId (some "eipalloc-7"),
            ApiCall.deleteSnapshot "snap-c7"])
          = (⟨1, 1, 0⟩, [ApiCall.releaseAllocationId (some "eipalloc-7"),
            ApiCall.deleteSnapshot "snap-c7"]) := by
  have heip := region_confirm_decline_skips_region cfgC7 envC7 confC7 rfl rfl
  have hsnap := region_confirm_decline_skips_region cfgC7 envC7 confSnapDeclW rfl rfl
  have hinst := region_confirm_decline_skips_region cfgAllC7 envC7 confInstDeclW rfl rfl
  exact ⟨heip.1 rfl rfl (by decide), hsnap.2.1 _ rfl rfl (by decide),
    hinst.2.2.1 _ rfl rfl⟩

theorem pyIterElems_error_ne (v : PyVal) (e : String)
    (h : pyIterElems v = Except.error e) : e ≠ "" := by
  cases v with
  | str s => simp [pyIterElems] at h
  | list xs => simp [pyIterElems] at h
  | dict kvs => simp [pyIterElems] at h
  | int n =>
    simp [pyIterElems] at h
    rw [← h]
    decide
  | bool b =>
    simp [pyIterElems] at h
    rw [← h]
    decide
  | none =>
    simp [pyIterElems] at h
    rw [← h]
    decide

/-- Counterexample to C8 as stated: a `regions` field that is a string is
not a list of region strings, yet Python iterates it character-wise, so
`lambda_handler` completes and returns statusCode 200, not 500. -/
theorem malformed_regions_counterexample :
    pyGet [("regions", PyVal.str "eu-west-1")] "regions"
        (PyVal.list [PyVal.str "us-east-1"]) = PyVal.str "eu-west-1"
      ∧ (lambda_handler "us-east-1" [("regions", PyVal.str "eu-west-1")]
          (fun _ => emptyEnvW)).1.statusCode = 200
      ∧ (lambda_handler "us-east-1" [("regions", PyVal.str "eu-west-1")]
          (fun _ => emptyEnvW)).1.statusCode ≠ 500 := by
  refine ⟨rfl, by decide, by decide⟩

/-- C8 as amended: when the `regions` field of the event is a non-iterable
value (a number, boolean, or null — anything Python's `for` raises a
TypeError on), `lambda_handler` returns statusCode 500 with a non-empty
error string in its body; and for every event the entry point returns a
response object (statusCode 200 or 500) rather than propagating an
exception.  An iterable non-list (a string or a dictionary) is instead
iterated element-wise and produces a 200 response as shown by the
counterexample. -/
theorem noniterable_regions_yields_500
    (defR : String) (event : List (String × PyVal)) (env : PyVal → RegionEnv)
    (e : String)
    (h : pyIterElems (pyGet event "regions" (PyVal.list [PyVal.str defR]))
        = Except.error e) :
    (lambda_handler defR event env).1.statusCode = 500
      ∧ (lambda_handler defR event env).1.body.errorMsg = some e
      ∧ e ≠ ""
      ∧ ∀ (ev2 : List (String × PyVal)) (env2 : PyVal → RegionEnv),
          (lambda_handler defR ev2 env2).1.statusCode = 200
            ∨ (lambda_handler defR ev2 env2).1.statusCode = 500 := by
  refine ⟨?_, ?_, pyIterElems_error_ne _ e h, ?_⟩
  · simp [lambda_handler, h]
  · simp [lambda_handler, h, LBody.errorMsg]
  · intro ev2 env2
    cases hv : pyIterElems (pyGet ev2 "regions" (PyVal.list [PyVal.str defR])) with
    | error e2 =>
      right
      simp [lambda_handler, hv]
    | ok xs =>
      left
      simp [lambda_handler, hv]

/-- Witness for the amended C8: an integer `regions` field yields the 500
response with the non-empty TypeError text. -/
theorem noniterable_regions_yields_500_witness :
    (lambda_handler "us-east-1" [("regions", PyVal.int 5)]
        (fun _ => emptyEnvW)).1.statusCode = 500
      ∧ (lambda_handler "us-east-1" [("regions", PyVal.int 5)]
          (fun _ => emptyEnvW)).1.body.errorMsg
          = some "TypeError: int object is not iterable" := by
  have h := noniterable_regions_yields_500 "us-east-1" [("regions", PyVal.int 5)]
    (fun _ => emptyEnvW) "TypeError: int object is not iterable" rfl
  exact ⟨h.1, h.2.1⟩

/-- C9: on a well-formed region list, the aggregated `total_cleaned` of the
event-driven flavor is the per-kind sum of the per-region cleaned counts
over all requested regions, and `regions_processed` equals the number of
requested regions. -/
theorem lambda_aggregation_sums
    (defR : String) (event : List (String × PyVal)) (env : PyVal → RegionEnv)
    (rs : List PyVal)
    (h : pyGet event "regions" (PyVal.list [PyVal.str defR]) = PyVal.list rs) :
    (lambda_handler defR event env).1.statusCode = 200
      ∧ (lambda_handler defR event env).1.body.totalCleaned
          = { eips := (rs.map (fun r =>
                (cleanup_resources (cfgFromEvent event) (env r)).1.cleaned.eips)).sum
              snapshots := (rs.map (fun r =>
                (cleanup_resources (cfgFromEvent event) (env r)).1.cleaned.snapshots)).sum
              instances := (rs.map (fun r =>
                (cleanup_resources (cfgFromEvent event) (env r)).1.cleaned.instances)).sum }
      ∧ (lambda_handler defR event env).1.body.regionsProcessed = rs.length := by
  have hiter : pyIterElems (pyGet event "regions" (PyVal.list [PyVal.str defR]))
      = Except.ok rs := by
    rw [h]
    rfl
  refine ⟨?_, ?_, ?_⟩
  · simp [lambda_handler, hiter]
  · simp [lambda_handler, hiter, LBody.totalCleaned, aggregateResults_eq,
      List.map_map, Function.comp_def]
  · simp [lambda_handler, hiter, LBody.regionsProcessed]

/-- The region world of the C9 witness: one unattached vpc address. -/
def envAggW : RegionEnv :=
  { now := 10000000
    addresses := [⟨Option.none, Option.none, some "eipalloc-9",
      some "203.0.113.9", some "vpc"⟩]
    snapshots := []
    reservations := []
    failsEip := fun _ => false
    failsSnap := fun _ => false
    failsInst := fun _ => false }

/-- The C9 witness event: two regions, EIP cleanup enabled, dry-run by
default. -/
def eventC9 : List (String × PyVal) :=
  [("regions", PyVal.list [PyVal.str "r1", PyVal.str "r2"]),
   ("clean_eips", PyVal.bool true)]

/-- Witness for C9: two regions each cleaning one address aggregate to a
total of two with regions_processed 2, as in the specification example. -/
theorem lambda_aggregation_sums_witness :
    (lambda_handler "us-east-1" eventC9 (fun _ => envAggW)).1.statusCode = 200
      ∧ (lambda_handler "us-east-1" eventC9 (fun _ => envAggW)).1.body.totalCleaned
          = ⟨2, 0, 0⟩
      ∧ (lambda_handler "us-east-1" eventC9 (fun _ => envAggW)).1.body.regionsProcessed
          = 2 := by
  have h := lambda_aggregation_sums "us-east-1" eventC9 (fun _ => envAggW)
    [PyVal.str "r1", PyVal.str "r2"] rfl
  refine ⟨h.1, ?_, h.2.2⟩
  rw [h.2.1]
  decide

/-- C10: in the event-driven per-region cleanup, for every enabled kind the
cleaned count plus the number of error entries its item loop appended
equals the number of candidates its finder produced; under dry-run the
cleaned count is the full candidate count and the kind contributes no
errors.  The first conjunct ties the per-kind error segments to the one
shared error list of the result, in loop order. -/
theorem lambda_cleanup_invariant (cfg : LambdaConfig) (env : RegionEnv) :
    ((cleanup_resources cfg env).1.errors
        = (eipStage cfg env).2.1 ++ (snapStage cfg env).2.1 ++ (instStage cfg env).2.1)
      ∧ (cfg.cleanEips = true →
          (cleanup_resources cfg env).1.cleaned.eips + (eipStage cfg env).2.1.length
              = (find_unused_elastic_ips env.addresses).length
            ∧ (cfg.dryRun = true →
                (cleanup_resources cfg env).1.cleaned.eips
                    = (find_unused_elastic_ips env.addresses).length
                  ∧ (eipStage cfg env).2.1 = []))
      ∧ (∀ d, cfg.cleanSnapshots = true → cfg.snapshotDays = some d →
          (cleanup_resources cfg env).1.cleaned.snapshots + (snapStage cfg env).2.1.length
              = (find_old_snapshots_l env.now d env.snapshots).length
            ∧ (cfg.dryRun = true →
                (cleanup_resources cfg env).1.cleaned.snapshots
                    = (find_old_snapshots_l env.now d env.snapshots).length
                  ∧ (snapStage cfg env).2.1 = []))
      ∧ (∀ d, cfg.cleanInstances = true → cfg.instanceDays = some d →
          (cleanup_resources cfg env).1.cleaned.instances + (instStage cfg env).2.1.length
              = (find_stopped_instances_l env.now d env.reservations).length
            ∧ (cfg.dryRun = true →
                (cleanup_resources cfg env).1.cleaned.instances
                    = (find_stopped_instances_l env.now d env.reservations).length
                  ∧ (instStage cfg env).2.1 = [])) := by
  refine ⟨rfl, ?_, ?_, ?_⟩
  · intro h2
    have hcl : (cleanup_resources cfg env).1.cleaned.eips = (eipStage cfg env).1 := rfl
    constructor
    · rw [hcl, eipStage, if_pos h2]
      exact cleanupLoop_inv eipCall eipErrMsg cfg.dryRun env.failsEip 0
        (find_unused_elastic_ips env.addresses)
    · intro hd
      have hdry := eipStage_dry cfg env hd
      rw [hcl, hdry]
      simp [h2]
  · intro d h3 hd3
    have hcl : (cleanup_resources cfg env).1.cleaned.snapshots = (snapStage cfg env).1 := rfl
    constructor
    · rw [hcl, snapStage, if_pos h3, hd3]
      exact cleanupLoop_inv snapCallL snapErrMsgL cfg.dryRun env.failsSnap 0
        (find_old_snapshots_l env.now d env.snapshots)
    · intro hd
      have hdry := snapStage_dry cfg env hd
      rw [hcl, hdry]
      simp [h3, hd3]
  · intro d h4 hd4
    have hcl : (cleanup_resources cfg env).1.cleaned.instances = (instStage cfg env).1 := rfl
    constructor
    · rw [hcl, instStage, if_pos h4, hd4]
      exact cleanupLoop_inv instCallL instErrMsgL cfg.dryRun env.failsInst 0
        (find_stopped_instances_l env.now d env.reservations)
    · intro hd
      have hdry := instStage_dry cfg env hd
      rw [hcl, hdry]
      simp [h4, hd4]

/-- Witness for C10: the fully-enabled dry-run configuration over a region
with one candidate address and one candidate snapshot satisfies the
invariant with full counts and no errors. -/
theorem lambda_cleanup_invariant_witness :
    (cleanup_resources lcfgDryW envW).1.cleaned.eips + (eipStage lcfgDryW envW).2.1.length
        = (find_unused_elastic_ips envW.addresses).length
      ∧ (cleanup_resources lcfgDryW envW).1.cleaned.snapshots
          = (find_old_snapshots_l envW.now 30 envW.snapshots).length
      ∧ (snapStage lcfgDryW envW).2.1 = [] := by
  have h := lambda_cleanup_invariant lcfgDryW envW
  exact ⟨(h.2.1 rfl).1, ((h.2.2.1 30 rfl rfl).2 rfl).1, ((h.2.2.1 30 rfl rfl).2 rfl).2⟩
